import Mathlib

/-!
Shallow embedding of the qa-rs Alpha Vantage client
(`src/third_party_api/alpha_vantage.rs`) and of the historical price data
model (`src/historical.rs`), with theorems settling the specification's
claims about them.

Rust `String` values are modelled as Lean `String`; `f64` fields as `Float`
and `i32` as `Int` (the code performs no arithmetic on either); a
`chrono::DateTime<Utc>` as an instant value the code never inspects.  The
asynchronous `query` function is modelled as a function of the query bundle
and of a transport oracle answering the single HTTP request the code
issues; its result records the list of requests handed to the transport
together with the `Result` value of the Rust function.
-/

namespace AlphaVantage

/-- The seven time-range functions of the Alpha Vantage API
(`enum AlphaVantageRangeFunction` in `alpha_vantage.rs`). -/
inductive AlphaVantageRangeFunction where
  | Intraday
  | Daily
  | DailyAdjusted
  | Weekly
  | WeeklyAdjusted
  | Monthly
  | MonthlyAdjusted
deriving DecidableEq

/-- Rust `#[derive(Debug)]` on a fieldless enum renders the bare variant
name. -/
def AlphaVantageRangeFunction.debugFmt : AlphaVantageRangeFunction → String
  | .Intraday => "Intraday"
  | .Daily => "Daily"
  | .DailyAdjusted => "DailyAdjusted"
  | .Weekly => "Weekly"
  | .WeeklyAdjusted => "WeeklyAdjusted"
  | .Monthly => "Monthly"
  | .MonthlyAdjusted => "MonthlyAdjusted"

/-- The `fmt::Display` impl of `AlphaVantageRangeFunction` delegates to
`Debug::fmt`, so a plain `format!` placeholder renders the variant name. -/
def AlphaVantageRangeFunction.display (f : AlphaVantageRangeFunction) : String :=
  f.debugFmt

/-- The query parameter bundle (`struct AlphaVantageRangeQuery` in
`alpha_vantage.rs`): a range function plus four caller-supplied opaque
strings. -/
structure AlphaVantageRangeQuery where
  function : AlphaVantageRangeFunction
  symbol : String
  api_key : String
  interval : String
  output_size : String

/-- The URL built by the `format!` call in `query` (`alpha_vantage.rs`):
the fixed base with the five fields interpolated in source order via their
`Display` forms, with no URL-encoding. -/
def buildUrl (q : AlphaVantageRangeQuery) : String :=
  "https://www.alphavantage.co/query?function=" ++ q.function.display ++
  "&symbol=" ++ q.symbol ++
  "&apikey=" ++ q.api_key ++
  "&interval=" ++ q.interval ++
  "&outputsize=" ++ q.output_size

/-- The URL as the specification words it: the fixed base endpoint, a `?`,
then the five `name=value` query parameters joined with `&` in the fixed
order `function, symbol, apikey, interval, outputsize`, each value the
corresponding input verbatim.  Written from the spec's sentences, to be
compared with `buildUrl`, which is taken from the source. -/
def specUrl (q : AlphaVantageRangeQuery) : String :=
  "https://www.alphavantage.co/query" ++ "?" ++
  String.intercalate "&"
    ["function=" ++ q.function.display,
     "symbol=" ++ q.symbol,
     "apikey=" ++ q.api_key,
     "interval=" ++ q.interval,
     "outputsize=" ++ q.output_size]

/-- One character of Rust's string `Debug` escaping (`char::escape_debug`
as used by `Debug for str`: double quotes escaped, single quotes kept):
the named ASCII escapes, a `\u`-style escape for the remaining control
characters, and every printable character kept as itself.  Rust decides
printability of characters above ASCII from the Unicode tables; the model
keeps every such character, which agrees with Rust on all characters
appearing in this development. -/
def escapeDebugChar (c : Char) : List Char :=
  if c = '"' then ['\\', '"']
  else if c = '\\' then ['\\', '\\']
  else if c = '\n' then ['\\', 'n']
  else if c = '\r' then ['\\', 'r']
  else if c = '\t' then ['\\', 't']
  else if c = Char.ofNat 0 then ['\\', '0']
  else if c.toNat < 0x20 ∨ c.toNat = 0x7f then
    ['\\', 'u', '\x7b'] ++ Nat.toDigits 16 c.toNat ++ ['\x7d']
  else [c]

/-- Rust's string `Debug` escaping applied to a character sequence. -/
def escapeDebugStr : List Char → List Char
  | [] => []
  | c :: cs => escapeDebugChar c ++ escapeDebugStr cs

/-- Rust's `Debug` rendering of a string value: the escaped characters
between double quotes. -/
def strDebug (s : String) : String :=
  "\"" ++ String.mk (escapeDebugStr s.data) ++ "\""

/-- Rust `#[derive(Debug)]` on `AlphaVantageRangeQuery` (non-alternate
form): the struct name followed by the `field: value` pairs in declaration
order, string fields rendered with their `Debug` quoting and the enum
field with its derived `Debug` form. -/
def debugFmtQuery (q : AlphaVantageRangeQuery) : String :=
  "AlphaVantageRangeQuery \x7b function: " ++ q.function.debugFmt ++
  ", symbol: " ++ strDebug q.symbol ++
  ", api_key: " ++ strDebug q.api_key ++
  ", interval: " ++ strDebug q.interval ++
  ", output_size: " ++ strDebug q.output_size ++ " \x7d"

/-- An outbound HTTP request as the client assembles it: method, URL and
optional body. -/
structure Request where
  method : String
  url : String
  body : Option String

/-- What the transport hands back for a received response: the success bit
of its HTTP status (`reqwest::Response::status().is_success()`) and the
outcome of reading the body as text (`Response::text()`), `none` when the
body cannot be read as text. -/
structure HttpResponse where
  statusSuccess : Bool
  textResult : Option String

/-- The transport capability's answer to one HTTP request: either the
request fails to send (a transport error with its message), or a response
arrives. -/
inductive SendResult where
  | failed (cause : String)
  | response (r : HttpResponse)

/-- The two error paths of `query`: the `context(...)` wrapping of a send
failure and of a body-text failure.  Each constructor keeps the context
message built by the corresponding `format!` call. -/
inductive QueryError where
  | sendFailed (cause : String) (context : String)
  | textFailed (context : String)

/-- The context message attached to an error of `query`. -/
def QueryError.context : QueryError → String
  | .sendFailed _ c => c
  | .textFailed c => c

/-- The specification's error taxonomy for `query`. -/
inductive ErrorClass where
  | TransportError
  | UnsuccessfulResponse
  | DecodeError
deriving DecidableEq

/-- Classification of the code's error paths into the spec's taxonomy: a
send failure is a transport-level failure, a body-text failure is a decode
failure.  No path of the code produces `UnsuccessfulResponse`: the status
of a received response is never consulted. -/
def classify : QueryError → ErrorClass
  | .sendFailed _ _ => .TransportError
  | .textFailed _ => .DecodeError

/-- The single request `query` hands to the HTTP client
(`Client::new().get(url).send()`): a GET on the built URL, with no body. -/
def theRequest (q : AlphaVantageRangeQuery) : Request :=
  { method := "GET", url := buildUrl q, body := none }

/-- `pub async fn query` from `alpha_vantage.rs`, modelled over a
transport oracle: build the URL, issue one GET request, and either
propagate the send failure with a `Failed to send request` context,
propagate the body-text failure with a `Failed to get response text`
context, or return the body text.  The first component records the
requests handed to the transport, in order. -/
def query (q : AlphaVantageRangeQuery) (transport : Request → SendResult) :
    List Request × Except QueryError String :=
  match transport (theRequest q) with
  | .failed cause =>
      ([theRequest q],
        .error (.sendFailed cause
          ("Failed to send request for query " ++ debugFmtQuery q)))
  | .response r =>
      match r.textResult with
      | none =>
          ([theRequest q],
            .error (.textFailed
              ("Failed to get response text for query " ++ debugFmtQuery q)))
      | some body => ([theRequest q], .ok body)

/-- A concrete query bundle used to instantiate the universally quantified
theorems. -/
def sampleQuery : AlphaVantageRangeQuery :=
  { function := .Intraday, symbol := "AAPL", api_key := "demo-key",
    interval := "15min", output_size := "compact" }

/-- A transport answering every request with a successful response whose
body reads as `OK-BODY`. -/
def okTransport : Request → SendResult :=
  fun _ => .response { statusSuccess := true, textResult := some "OK-BODY" }

/-- A transport answering every request with a non-success status and the
body text of an error page. -/
def notFoundTransport : Request → SendResult :=
  fun _ => .response { statusSuccess := false, textResult := some "error page" }

/-- A transport that fails to send every request (connection refused). -/
def refusedTransport : Request → SendResult :=
  fun _ => .failed "connection refused"

/-- A transport answering every request with a successful status but a
body that cannot be read as text. -/
def badBodyTransport : Request → SendResult :=
  fun _ => .response { statusSuccess := true, textResult := none }

/-- The error `query` produces for `sampleQuery` over
`refusedTransport`. -/
def refusedQueryError : QueryError :=
  .sendFailed "connection refused"
    ("Failed to send request for query " ++ debugFmtQuery sampleQuery)

/-- A query bundle whose API key contains a character that string `Debug`
escapes. -/
def leakQuery : AlphaVantageRangeQuery :=
  { function := .Intraday, symbol := "S", api_key := "a\"b",
    interval := "i", output_size := "o" }

/-- The error `query` produces for `leakQuery` over `refusedTransport`. -/
def leakQueryError : QueryError :=
  .sendFailed "connection refused"
    ("Failed to send request for query " ++ debugFmtQuery leakQuery)

end AlphaVantage

namespace Historical

/-- Models `chrono::DateTime<chrono::Utc>`: an instant supplied by the
date/time collaborator.  The code never inspects it, so only its identity
matters; it is represented by its timestamp. -/
structure DateTimeUtc where
  timestamp : Int
deriving DecidableEq

/-- `struct HistoricalMetaData` from `historical.rs`: six descriptive
strings. -/
structure HistoricalMetaData where
  information : String
  symbol : String
  last_refreshed : String
  interval : String
  output_size : String
  time_zone : String

/-- `struct HistoricalPrice` from `historical.rs`: one timestamped OHLCV
sample; the `f64` prices are modelled as `Float` and the `i32` volume as
`Int`. -/
structure HistoricalPrice where
  time : DateTimeUtc
  «open» : Float
  high : Float
  low : Float
  close : Float
  volume : Int

/-- `struct HistoricalData` from `historical.rs`: one metadata record plus
an ordered sequence of price points. -/
structure HistoricalData where
  meta_data : HistoricalMetaData
  time_series : List HistoricalPrice

end Historical

namespace AlphaVantage

/-- Data of a concatenation is the concatenation of the data. -/
theorem strData_append (s t : String) : (s ++ t).data = s.data ++ t.data := rfl

/-- The right part of a concatenation occurs in it. -/
theorem trailing_part (a b : String) : b.data <:+: (a ++ b).data :=
  ⟨a.data, [], by simp [strData_append]⟩

/-- The rendered function token occurs in the `Debug` form of a query. -/
theorem debug_has_display (q : AlphaVantageRangeQuery) :
    (q.function.display).data <:+: (debugFmtQuery q).data := by
  refine ⟨"AlphaVantageRangeQuery \x7b function: ".data,
    (", symbol: " ++ strDebug q.symbol ++ ", api_key: " ++ strDebug q.api_key ++
     ", interval: " ++ strDebug q.interval ++ ", output_size: " ++
     strDebug q.output_size ++ " \x7d").data, ?_⟩
  simp [debugFmtQuery, strData_append, List.append_assoc,
    AlphaVantageRangeFunction.display]

/-- The `Debug` rendering of the symbol occurs in the `Debug` form of a
query. -/
theorem debug_has_symbol (q : AlphaVantageRangeQuery) :
    (strDebug q.symbol).data <:+: (debugFmtQuery q).data := by
  refine ⟨("AlphaVantageRangeQuery \x7b function: " ++ q.function.debugFmt ++
      ", symbol: ").data,
    (", api_key: " ++ strDebug q.api_key ++
     ", interval: " ++ strDebug q.interval ++ ", output_size: " ++
     strDebug q.output_size ++ " \x7d").data, ?_⟩
  simp [debugFmtQuery, strData_append, List.append_assoc]

/-- The `Debug` rendering of the API key occurs in the `Debug` form of a
query. -/
theorem debug_has_api_key (q : AlphaVantageRangeQuery) :
    (strDebug q.api_key).data <:+: (debugFmtQuery q).data := by
  refine ⟨("AlphaVantageRangeQuery \x7b function: " ++ q.function.debugFmt ++
      ", symbol: " ++ strDebug q.symbol ++ ", api_key: ").data,
    (", interval: " ++ strDebug q.interval ++ ", output_size: " ++
     strDebug q.output_size ++ " \x7d").data, ?_⟩
  simp [debugFmtQuery, strData_append, List.append_assoc]

/-- Every error of `query` carries a context ending in the `Debug` form of
the triggering query. -/
theorem error_context_has_debug (q : AlphaVantageRangeQuery)
    (t : Request → SendResult) (e : QueryError)
    (he : (query q t).2 = .error e) :
    (debugFmtQuery q).data <:+: e.context.data := by
  cases ht : t (theRequest q) with
  | failed cause =>
      simp [query, ht] at he
      rw [← he]
      exact trailing_part "Failed to send request for query " (debugFmtQuery q)
  | response r =>
      cases hr : r.textResult with
      | none =>
          simp [query, ht, hr] at he
          rw [← he]
          exact trailing_part "Failed to get response text for query "
            (debugFmtQuery q)
      | some body => simp [query, ht, hr] at he

/-- C1: for every one of the seven `AlphaVantageRangeFunction` variants,
the value rendered into the URL's `function` query parameter — the
`Display` form, which delegates to the derived `Debug` form — equals the
literal variant name, one equation per variant. -/
theorem function_parameter_is_variant_name :
    AlphaVantageRangeFunction.display .Intraday = "Intraday" ∧
    AlphaVantageRangeFunction.display .Daily = "Daily" ∧
    AlphaVantageRangeFunction.display .DailyAdjusted = "DailyAdjusted" ∧
    AlphaVantageRangeFunction.display .Weekly = "Weekly" ∧
    AlphaVantageRangeFunction.display .WeeklyAdjusted = "WeeklyAdjusted" ∧
    AlphaVantageRangeFunction.display .Monthly = "Monthly" ∧
    AlphaVantageRangeFunction.display .MonthlyAdjusted = "MonthlyAdjusted" :=
  ⟨rfl, rfl, rfl, rfl, rfl, rfl, rfl⟩

/-- C2: for every query bundle, the URL built by `query` is exactly the
spec's URL: the fixed base followed by the five parameters named and
ordered `function, symbol, apikey, interval, outputsize`, each populated
with the corresponding field verbatim. -/
theorem url_matches_spec (q : AlphaVantageRangeQuery) :
    buildUrl q = specUrl q := by
  have h : specUrl q =
      ("https://www.alphavantage.co/query" ++ "?") ++
      (((("function=" ++ q.function.display ++ "&" ++ ("symbol=" ++ q.symbol))
        ++ "&" ++ ("apikey=" ++ q.api_key))
        ++ "&" ++ ("interval=" ++ q.interval))
        ++ "&" ++ ("outputsize=" ++ q.output_size)) := rfl
  rw [h]
  simp only [buildUrl, String.append_assoc]
  rfl

/-- C3: at the failing input — a transport answering with a non-success
HTTP status and the body text of an error page — `query` returns the body
as success instead of an `UnsuccessfulResponse` error: the status of a
received response is never consulted, contradicting the function's own doc
comment, which lists a non-successful status code among its error
conditions. -/
theorem nonsuccess_status_returned_as_ok :
    (query sampleQuery notFoundTransport).2 = .ok "error page" := rfl

/-- C4: for every query bundle, if the transport answers the issued
request with a response whose status is successful and whose body reads
as some text, `query` returns exactly that text as success, unparsed and
unvalidated. -/
theorem success_returns_body (q : AlphaVantageRangeQuery)
    (t : Request → SendResult) (r : HttpResponse) (body : String)
    (ht : t (theRequest q) = .response r) (_hs : r.statusSuccess = true)
    (hb : r.textResult = some body) :
    (query q t).2 = .ok body := by
  simp [query, ht, hb]

/-- Witness for C4 at the spec's concrete input: a successful response
with body `OK-BODY` yields `Ok("OK-BODY")`. -/
theorem success_returns_body_witness :
    (query sampleQuery okTransport).2 = .ok "OK-BODY" :=
  success_returns_body sampleQuery okTransport
    ⟨true, some "OK-BODY"⟩ "OK-BODY" rfl rfl rfl

/-- C5: every failure outcome of `query` carries a context annotated with
the rendered (`Debug`) form of the triggering query's parameters, in
which the query's function token and its rendered symbol are visible. -/
theorem error_context_names_query (q : AlphaVantageRangeQuery)
    (t : Request → SendResult) (e : QueryError)
    (he : (query q t).2 = .error e) :
    (debugFmtQuery q).data <:+: e.context.data ∧
    (q.function.display).data <:+: e.context.data ∧
    (strDebug q.symbol).data <:+: e.context.data := by
  have hd := error_context_has_debug q t e he
  exact ⟨hd, List.IsInfix.trans (debug_has_display q) hd,
    List.IsInfix.trans (debug_has_symbol q) hd⟩

/-- Witness for C5: a connection-refused send failure for the sample
query carries its rendered parameters, function token and symbol. -/
theorem error_context_names_query_witness :
    (debugFmtQuery sampleQuery).data <:+: refusedQueryError.context.data ∧
    (sampleQuery.function.display).data <:+: refusedQueryError.context.data ∧
    (strDebug sampleQuery.symbol).data <:+: refusedQueryError.context.data :=
  error_context_names_query sampleQuery refusedTransport refusedQueryError rfl

/-- C6: for every query bundle, if the transport answers with a
successful status but a body that cannot be read as text, `query` returns
an error classified as a decode failure, annotated with the failing
query. -/
theorem decode_failure_yields_decode_error (q : AlphaVantageRangeQuery)
    (t : Request → SendResult) (r : HttpResponse)
    (ht : t (theRequest q) = .response r) (_hs : r.statusSuccess = true)
    (hb : r.textResult = none) :
    ∃ e, (query q t).2 = .error e ∧ classify e = .DecodeError ∧
      (debugFmtQuery q).data <:+: e.context.data := by
  refine ⟨.textFailed ("Failed to get response text for query " ++
    debugFmtQuery q), ?_, rfl, ?_⟩
  · simp [query, ht, hb]
  · exact trailing_part "Failed to get response text for query "
      (debugFmtQuery q)

/-- Witness for C6: a successful status with an unreadable body yields a
decode-classified error for the sample query. -/
theorem decode_failure_yields_decode_error_witness :
    ∃ e, (query sampleQuery badBodyTransport).2 = .error e ∧
      classify e = .DecodeError ∧
      (debugFmtQuery sampleQuery).data <:+: e.context.data :=
  decode_failure_yields_decode_error sampleQuery badBodyTransport
    ⟨true, none⟩ rfl rfl rfl

/-- C7: for every query bundle and every transport, one invocation of
`query` hands the transport exactly one request — a GET on the built URL
with no body — never zero and never more than one. -/
theorem exactly_one_get_request (q : AlphaVantageRangeQuery)
    (t : Request → SendResult) :
    (query q t).1 = [theRequest q] ∧
    (theRequest q).method = "GET" ∧ (theRequest q).body = none := by
  refine ⟨?_, rfl, rfl⟩
  cases ht : t (theRequest q) with
  | failed cause => simp [query, ht]
  | response r =>
      cases hr : r.textResult with
      | none => simp [query, ht, hr]
      | some body => simp [query, ht, hr]

set_option maxRecDepth 4000 in
/-- C9, counterexample: for the query whose API key is `a"b`, the send
failure's context does not contain the API key verbatim — `Debug`
escaping renders it as `a\"b`. -/
theorem api_key_not_verbatim :
    (query leakQuery refusedTransport).2 = .error leakQueryError ∧
    ¬ (leakQuery.api_key.data <:+: leakQueryError.context.data) :=
  ⟨rfl, by decide⟩

/-- C9 as amended: every error of `query` carries a context containing
the `Debug` rendering of the entire query struct, hence the API key in
its `Debug`-escaped form; the key appears verbatim whenever escaping
leaves it unchanged. -/
theorem error_context_renders_api_key (q : AlphaVantageRangeQuery)
    (t : Request → SendResult) (e : QueryError)
    (he : (query q t).2 = .error e)
    (hclean : escapeDebugStr q.api_key.data = q.api_key.data) :
    (debugFmtQuery q).data <:+: e.context.data ∧
    q.api_key.data <:+: e.context.data := by
  have hd := error_context_has_debug q t e he
  refine ⟨hd, List.IsInfix.trans (List.IsInfix.trans ?_ (debug_has_api_key q)) hd⟩
  refine ⟨['"'], ['"'], ?_⟩
  simp [strDebug, strData_append, hclean]

/-- Witness for C9 as amended: the sample query's key `demo-key` needs no
escaping and appears verbatim in the send failure's context. -/
theorem error_context_renders_api_key_witness :
    (debugFmtQuery sampleQuery).data <:+: refusedQueryError.context.data ∧
    sampleQuery.api_key.data <:+: refusedQueryError.context.data :=
  error_context_renders_api_key sampleQuery refusedTransport
    refusedQueryError rfl (by decide)

/-- C10: the URL built by `query` is a deterministic function of the five
fields of the query bundle: two bundles with field-wise equal values
yield identical URL strings. -/
theorem url_deterministic (q₁ q₂ : AlphaVantageRangeQuery)
    (h1 : q₁.function = q₂.function) (h2 : q₁.symbol = q₂.symbol)
    (h3 : q₁.api_key = q₂.api_key) (h4 : q₁.interval = q₂.interval)
    (h5 : q₁.output_size = q₂.output_size) :
    buildUrl q₁ = buildUrl q₂ := by
  simp [buildUrl, h1, h2, h3, h4, h5]

/-- Witness for C10: two separately written but field-wise equal bundles
yield the same URL. -/
theorem url_deterministic_witness :
    buildUrl sampleQuery = buildUrl
      { function := .Intraday, symbol := "AAPL", api_key := "demo-key",
        interval := "15min", output_size := "compact" } :=
  url_deterministic _ _ rfl rfl rfl rfl rfl

end AlphaVantage

namespace Historical

/-- C8: constructing the historical data model values from any choice of
field values and reading the fields back yields exactly the values
supplied, for all fields of `HistoricalMetaData`, `HistoricalPrice` and
`HistoricalData`. -/
theorem fields_roundtrip
    (information symbol last_refreshed interval output_size time_zone : String)
    (time : DateTimeUtc) (o hi lo cl : Float) (volume : Int)
    (md : HistoricalMetaData) (ts : List HistoricalPrice) :
    (HistoricalMetaData.mk information symbol last_refreshed interval
        output_size time_zone).information = information ∧
    (HistoricalMetaData.mk information symbol last_refreshed interval
        output_size time_zone).symbol = symbol ∧
    (HistoricalMetaData.mk information symbol last_refreshed interval
        output_size time_zone).last_refreshed = last_refreshed ∧
    (HistoricalMetaData.mk information symbol last_refreshed interval
        output_size time_zone).interval = interval ∧
    (HistoricalMetaData.mk information symbol last_refreshed interval
        output_size time_zone).output_size = output_size ∧
    (HistoricalMetaData.mk information symbol last_refreshed interval
        output_size time_zone).time_zone = time_zone ∧
    (HistoricalPrice.mk time o hi lo cl volume).time = time ∧
    (HistoricalPrice.mk time o hi lo cl volume).«open» = o ∧
    (HistoricalPrice.mk time o hi lo cl volume).high = hi ∧
    (HistoricalPrice.mk time o hi lo cl volume).low = lo ∧
    (HistoricalPrice.mk time o hi lo cl volume).close = cl ∧
    (HistoricalPrice.mk time o hi lo cl volume).volume = volume ∧
    (HistoricalData.mk md ts).meta_data = md ∧
    (HistoricalData.mk md ts).time_series = ts :=
  ⟨rfl, rfl, rfl, rfl, rfl, rfl, rfl, rfl, rfl, rfl, rfl, rfl, rfl, rfl⟩

end Historical
